import Mathlib

/-!
Shallow embedding of the E.M.S.U school-management server
(`src/shared/schema.ts` and `src/server/routes.ts`: the route handlers and
the `DatabaseStorage` layer), together with theorems checking the
specification's claims about it.

Tables become lists of records, the database becomes a record of such
lists with a counter for generated ids, SQL `eq` against a nullable
column becomes equality with `some`, and `orderBy desc/asc` becomes
insertion sort on the relevant key.
-/

namespace EMSU

/-- `userRoleEnum` from `src/shared/schema.ts`. -/
inductive Role
  | student
  | teacher
  | parent
  | principal
  | proprietor
deriving DecidableEq, Repr

/-- `termEnum` from `src/shared/schema.ts`. -/
inductive Term
  | first
  | second
  | third
deriving DecidableEq, Repr

/-- `gradeStatusEnum` from `src/shared/schema.ts`. -/
inductive GradeStatus
  | draft
  | published
deriving DecidableEq, Repr

/-- `attendanceStatusEnum` from `src/shared/schema.ts` line 29: its three
constructors mirror the three string values of the pgEnum. -/
inductive AttendanceStatus
  | present
  | absent
  | late
deriving DecidableEq, Repr

/-- The literal string values of `attendanceStatusEnum` as written in
`src/shared/schema.ts` line 29. -/
def attendanceStatusValues : List String := ["present", "absent", "late"]

/-- Row of the `users` table (fields used by the routes). -/
structure User where
  id : String
  email : String
  role : Role
deriving DecidableEq, Repr

/-- Row of the `schools` table (fields used by the routes). -/
structure School where
  id : String
  name : String
  proprietorId : Option String
  principalId : Option String
deriving DecidableEq, Repr

/-- Row of the `students` table (fields used by the routes). -/
structure Student where
  id : String
  userId : Option String
  studentId : String
  classId : Option String
  schoolId : Option String
deriving DecidableEq, Repr

/-- Row of the `teachers` table (fields used by the routes). -/
structure Teacher where
  id : String
  userId : Option String
  teacherId : String
  schoolId : Option String
deriving DecidableEq, Repr

/-- Row of the `classes` table (fields used by the routes). -/
structure SchoolClass where
  id : String
  name : String
  schoolId : Option String
deriving DecidableEq, Repr

/-- Row of the `subjects` table (fields used by the routes). -/
structure Subject where
  id : String
  name : String
  schoolId : Option String
deriving DecidableEq, Repr

/-- Row of the `grades` table (fields used by the routes). Decimal columns
become rationals, timestamps become naturals. -/
structure Grade where
  id : String
  studentId : Option String
  subjectId : Option String
  teacherId : Option String
  academicSessionId : Option String
  term : Term
  assessmentType : String
  score : Option Rat
  maxScore : Option Rat
  status : GradeStatus
  createdAt : Nat
deriving DecidableEq, Repr

/-- Row of the `attendance` table (fields used by the routes). -/
structure Attendance where
  id : String
  studentId : Option String
  classId : Option String
  date : Nat
  status : AttendanceStatus
  remarks : Option String
  recordedBy : Option String
deriving DecidableEq, Repr

/-- Row of the `assignments` table (fields used by the routes). -/
structure Assignment where
  id : String
  title : String
  subjectId : Option String
  classId : Option String
  teacherId : Option String
  dueDate : Nat
deriving DecidableEq, Repr

/-- Row of the `messages` table (fields used by the routes). -/
structure Message where
  id : String
  senderId : Option String
  recipientId : Option String
  content : String
  createdAt : Nat
deriving DecidableEq, Repr

/-- Row of the `feePayments` table (fields used by the routes). -/
structure FeePayment where
  id : String
  studentId : Option String
  amountPaid : Rat
  createdAt : Nat
deriving DecidableEq, Repr

/-- Row of the `announcements` table (fields used by the routes). -/
structure Announcement where
  id : String
  title : String
  content : String
  authorId : Option String
  schoolId : Option String
  targetRole : Option Role
  isActive : Bool
  createdAt : Nat
deriving DecidableEq, Repr

/-- Row of the `reportCards` table (fields used by the routes). -/
structure ReportCard where
  id : String
  studentId : Option String
  academicSessionId : Option String
  term : Term
  totalScore : Rat
  totalPossible : Rat
  average : Rat
  position : Int
  classSize : Int
  isPublished : Bool
  generatedAt : Nat
deriving DecidableEq, Repr

/-- The database state: one list per table plus a counter standing in for
`gen_random_uuid()` and a clock for `defaultNow()` timestamps. -/
structure DB where
  users : List User
  schools : List School
  students : List Student
  teachers : List Teacher
  classes : List SchoolClass
  subjects : List Subject
  grades : List Grade
  attendance : List Attendance
  assignments : List Assignment
  messages : List Message
  feePayments : List FeePayment
  announcements : List Announcement
  reportCards : List ReportCard
  nextId : Nat
  now : Nat
deriving DecidableEq, Repr

/-- Fresh primary key for an insert (stands in for `gen_random_uuid()`). -/
def freshId (db : DB) : String := toString db.nextId

/-- `orderBy desc(key)` on a numeric column: sort so that larger keys come
first. -/
def descKey (key : α → Nat) (a b : α) : Prop := key b ≤ key a

instance (key : α → Nat) : DecidableRel (descKey key) :=
  fun a b => inferInstanceAs (Decidable (key b ≤ key a))

instance (key : α → Nat) : IsTotal α (descKey key) :=
  ⟨fun a b => le_total (key b) (key a)⟩

instance (key : α → Nat) : IsTrans α (descKey key) :=
  ⟨fun _ _ _ h1 h2 => le_trans h2 h1⟩

/-- Deterministic model of `orderBy(desc(column))` for a numeric column. -/
def sortDescBy (key : α → Nat) (l : List α) : List α :=
  l.insertionSort (descKey key)

/-- `orderBy asc(key)` on a string column: lexicographically smaller keys
come first. -/
def ascStr (key : α → String) (a b : α) : Prop := key a ≤ key b

instance (key : α → String) : DecidableRel (ascStr key) :=
  fun a b => inferInstanceAs (Decidable (key a ≤ key b))

instance (key : α → String) : IsTotal α (ascStr key) :=
  ⟨fun a b => le_total (key a) (key b)⟩

instance (key : α → String) : IsTrans α (ascStr key) :=
  ⟨fun _ _ _ h1 h2 => le_trans h1 h2⟩

/-- Deterministic model of `orderBy(asc(column))` for a string column. -/
def sortAscBy (key : α → String) (l : List α) : List α :=
  l.insertionSort (ascStr key)

/-- `DatabaseStorage.getUser`. -/
def getUser (db : DB) (id : String) : Option User :=
  db.users.find? (fun u => decide (u.id = id))

/-- `DatabaseStorage.getStudentByUserId`. -/
def getStudentByUserId (db : DB) (userId : String) : Option Student :=
  db.students.find? (fun s => decide (s.userId = some userId))

/-- `DatabaseStorage.getTeacherByUserId`. -/
def getTeacherByUserId (db : DB) (userId : String) : Option Teacher :=
  db.teachers.find? (fun t => decide (t.userId = some userId))

/-- `DatabaseStorage.getClassesBySchool`. -/
def getClassesBySchool (db : DB) (schoolId : String) : List SchoolClass :=
  sortAscBy SchoolClass.name
    (db.classes.filter (fun c => decide (c.schoolId = some schoolId)))

/-- `DatabaseStorage.getSubjectsBySchool`. -/
def getSubjectsBySchool (db : DB) (schoolId : String) : List Subject :=
  sortAscBy Subject.name
    (db.subjects.filter (fun s => decide (s.schoolId = some schoolId)))

/-- `DatabaseStorage.getTeachersBySchool`. -/
def getTeachersBySchool (db : DB) (schoolId : String) : List Teacher :=
  sortAscBy Teacher.teacherId
    (db.teachers.filter (fun t => decide (t.schoolId = some schoolId)))

/-- `DatabaseStorage.getGradesByStudent`: with a term it filters on student
and term, without a term on student only; both branches order by
`desc(grades.createdAt)`. -/
def getGradesByStudent (db : DB) (studentId : String) (term : Option Term) :
    List Grade :=
  match term with
  | some t =>
      sortDescBy Grade.createdAt
        (db.grades.filter
          (fun g => decide (g.studentId = some studentId ∧ g.term = t)))
  | none =>
      sortDescBy Grade.createdAt
        (db.grades.filter (fun g => decide (g.studentId = some studentId)))

/-- `DatabaseStorage.getAttendanceByStudent` (both branches of the source
run the same query: filter by student, order by `desc(date)`). -/
def getAttendanceByStudent (db : DB) (studentId : String) : List Attendance :=
  sortDescBy Attendance.date
    (db.attendance.filter (fun a => decide (a.studentId = some studentId)))

/-- `DatabaseStorage.getAssignmentsByStudent`: inner join on the single
student row with `students.id = studentId`, keeping assignments whose
`classId` equals that student's `classId` (SQL null never equals null),
ordered by `desc(dueDate)`. -/
def getAssignmentsByStudent (db : DB) (studentId : String) : List Assignment :=
  match db.students.find? (fun s => decide (s.id = studentId)) with
  | none => []
  | some st =>
      sortDescBy Assignment.dueDate
        (db.assignments.filter
          (fun a => decide (∃ c, a.classId = some c ∧ st.classId = some c)))

/-- `DatabaseStorage.getMessagesByUser`. -/
def getMessagesByUser (db : DB) (userId : String) : List Message :=
  sortDescBy Message.createdAt
    (db.messages.filter (fun m => decide (m.recipientId = some userId)))

/-- `DatabaseStorage.getFeePaymentsByStudent`. -/
def getFeePaymentsByStudent (db : DB) (studentId : String) : List FeePayment :=
  sortDescBy FeePayment.createdAt
    (db.feePayments.filter (fun p => decide (p.studentId = some studentId)))

/-- `DatabaseStorage.getAnnouncementsBySchool`: with a role it filters on
school, `targetRole = role` and `isActive = true`; without a role it drops
the target-role condition; both branches order by `desc(createdAt)`. -/
def getAnnouncementsBySchool (db : DB) (schoolId : String)
    (role : Option Role) : List Announcement :=
  match role with
  | some r =>
      sortDescBy Announcement.createdAt
        (db.announcements.filter
          (fun a =>
            decide (a.schoolId = some schoolId ∧ a.targetRole = some r ∧
              a.isActive = true)))
  | none =>
      sortDescBy Announcement.createdAt
        (db.announcements.filter
          (fun a => decide (a.schoolId = some schoolId ∧ a.isActive = true)))

/-- `DatabaseStorage.getReportCardsByStudent`. -/
def getReportCardsByStudent (db : DB) (studentId : String) : List ReportCard :=
  sortDescBy ReportCard.generatedAt
    (db.reportCards.filter (fun r => decide (r.studentId = some studentId)))

/-- `DatabaseStorage.getSchoolByUser`: first school whose `proprietorId`
matches, else first whose `principalId` matches, else the school of the
first matching row of the teacher-school inner join, else of the
student-school inner join, else `none`. -/
def getSchoolByUser (db : DB) (userId : String) : Option School :=
  match db.schools.find? (fun s => decide (s.proprietorId = some userId)) with
  | some school => some school
  | none =>
    match db.schools.find? (fun s => decide (s.principalId = some userId)) with
    | some school => some school
    | none =>
      match
        (db.teachers.filterMap (fun t =>
          if t.userId = some userId then
            db.schools.find? (fun s => decide (t.schoolId = some s.id))
          else none)).head? with
      | some school => some school
      | none =>
        (db.students.filterMap (fun st =>
          if st.userId = some userId then
            db.schools.find? (fun s => decide (st.schoolId = some s.id))
          else none)).head?

/-- Insert payload for `grades` (`insertGradeSchema`: a `Grade` without the
generated `id`/`createdAt`). -/
structure InsertGrade where
  studentId : Option String
  subjectId : Option String
  teacherId : Option String
  academicSessionId : Option String
  term : Term
  assessmentType : String
  score : Option Rat
  maxScore : Option Rat
  status : GradeStatus
deriving DecidableEq, Repr

/-- `DatabaseStorage.createGrade`: plain insert with generated id. -/
def createGrade (db : DB) (g : InsertGrade) : Grade × DB :=
  let row : Grade :=
    { id := freshId db, studentId := g.studentId, subjectId := g.subjectId,
      teacherId := g.teacherId, academicSessionId := g.academicSessionId,
      term := g.term, assessmentType := g.assessmentType, score := g.score,
      maxScore := g.maxScore, status := g.status, createdAt := db.now }
  (row, { db with grades := db.grades ++ [row], nextId := db.nextId + 1 })

/-- Insert payload for `announcements` (`insertAnnouncementSchema`). -/
structure InsertAnnouncement where
  title : String
  content : String
  authorId : Option String
  schoolId : Option String
  targetRole : Option Role
  isActive : Bool
deriving DecidableEq, Repr

/-- `DatabaseStorage.createAnnouncement`: plain insert with generated id. -/
def createAnnouncement (db : DB) (a : InsertAnnouncement) :
    Announcement × DB :=
  let row : Announcement :=
    { id := freshId db, title := a.title, content := a.content,
      authorId := a.authorId, schoolId := a.schoolId,
      targetRole := a.targetRole, isActive := a.isActive,
      createdAt := db.now }
  (row, { db with
            announcements := db.announcements ++ [row]
            nextId := db.nextId + 1 })

/-- Insert payload for `attendance` (`insertAttendanceSchema`). -/
structure InsertAttendance where
  studentId : Option String
  classId : Option String
  date : Nat
  status : AttendanceStatus
  remarks : Option String
  recordedBy : Option String
deriving DecidableEq, Repr

/-- `DatabaseStorage.createAttendance` (`src/server/routes.ts` lines
1129-1135): the parameter named `attendance` shadows the imported
`attendance` table, so `db.insert(attendance).values(attendance)` receives
the payload object where a table is required and throws at runtime. The
call never returns a row and never changes the store; `none` models the
thrown error. -/
def createAttendance (_db : DB) (_a : InsertAttendance) :
    Option (Attendance × DB) :=
  none

/-- `DatabaseStorage.generateReportCard` as written in
`src/server/routes.ts` lines 1064-1082: it inserts a row with
`totalScore = "0"`, `totalPossible = "0"`, `average = "0"`, `position = 0`,
`classSize = 0`, `isPublished = false`, without reading the `grades`
table. -/
def generateReportCard (db : DB) (studentId : String) (term : Term)
    (academicSessionId : String) : ReportCard × DB :=
  let row : ReportCard :=
    { id := freshId db, studentId := some studentId,
      academicSessionId := some academicSessionId, term := term,
      totalScore := 0, totalPossible := 0, average := 0, position := 0,
      classSize := 0, isPublished := false, generatedAt := db.now }
  (row, { db with
            reportCards := db.reportCards ++ [row]
            nextId := db.nextId + 1 })

/-- The merged dashboard payload of `GET /api/dashboard`: optional sections
mirror JavaScript object keys that are only present when the corresponding
branch ran. -/
structure DashboardData where
  user : User
  school : Option School
  student : Option Student := none
  teacher : Option Teacher := none
  grades : Option (List Grade) := none
  attendance : Option (List Attendance) := none
  assignments : Option (List Assignment) := none
  messages : Option (List Message) := none
  feePayments : Option (List FeePayment) := none
  classes : Option (List SchoolClass) := none
  subjects : Option (List Subject) := none
  teachers : Option (List Teacher) := none
  announcements : Option (List Announcement) := none
deriving DecidableEq, Repr

/-- `GET /api/dashboard` (`src/server/routes.ts` lines 12-88): `none` is
the 404 for a missing user; otherwise the base payload `{ user, school }`
is extended with role-specific sections exactly when the role's guard
(`if (student)`, `if (teacher && school)`, `if (school)`) passes. -/
def getDashboard (db : DB) (userId : String) : Option DashboardData :=
  match getUser db userId with
  | none => none
  | some user =>
    let school := getSchoolByUser db userId
    let base : DashboardData := { user := user, school := school }
    match user.role with
    | Role.student =>
      match getStudentByUserId db userId with
      | none => some base
      | some st =>
        some { base with
                 student := some st
                 grades := some (getGradesByStudent db st.id (some Term.first))
                 attendance := some (getAttendanceByStudent db st.id)
                 assignments := some (getAssignmentsByStudent db st.id)
                 messages := some (getMessagesByUser db userId)
                 feePayments := some (getFeePaymentsByStudent db st.id) }
    | Role.teacher =>
      match getTeacherByUserId db userId, school with
      | some t, some sch =>
        some { base with
                 teacher := some t
                 classes := some (getClassesBySchool db sch.id)
                 subjects := some (getSubjectsBySchool db sch.id)
                 messages := some (getMessagesByUser db userId) }
      | _, _ => some base
    | Role.principal =>
      match school with
      | some sch =>
        some { base with
                 classes := some (getClassesBySchool db sch.id)
                 teachers := some (getTeachersBySchool db sch.id)
                 subjects := some (getSubjectsBySchool db sch.id)
                 announcements := some (getAnnouncementsBySchool db sch.id none) }
      | none => some base
    | Role.proprietor =>
      match school with
      | some sch =>
        some { base with
                 classes := some (getClassesBySchool db sch.id)
                 teachers := some (getTeachersBySchool db sch.id)
                 subjects := some (getSubjectsBySchool db sch.id)
                 announcements := some (getAnnouncementsBySchool db sch.id none) }
      | none => some base
    | Role.parent => some base

/-- `POST /api/grades` (`src/server/routes.ts` lines 174-190): HTTP status
paired with the resulting database state. -/
def postGrades (db : DB) (user : User) (body : InsertGrade) : Nat × DB :=
  if user.role ≠ Role.teacher then (403, db)
  else
    let res := createGrade db body
    (201, res.2)

/-- `POST /api/announcements` (`src/server/routes.ts` lines 242-268): looks
the caller up by id, rejects roles outside principal/proprietor with 403,
rejects a missing school with 404, then inserts with `authorId` and
`schoolId` overridden from the session. -/
def postAnnouncements (db : DB) (userId : String) (body : InsertAnnouncement) :
    Nat × DB :=
  match getUser db userId with
  | none => (403, db)
  | some user =>
    if user.role ≠ Role.principal ∧ user.role ≠ Role.proprietor then (403, db)
    else
      match getSchoolByUser db userId with
      | none => (404, db)
      | some school =>
        let res := createAnnouncement db
          { body with authorId := some userId, schoolId := some school.id }
        (201, res.2)

/-- `POST /api/attendance` (`src/server/routes.ts` lines 428-445): rejects
roles outside teacher/principal with 403, then calls `createAttendance`
with `recordedBy` overridden from the session; the catch block turns the
thrown error into a 500 with the store untouched. -/
def postAttendance (db : DB) (user : User) (body : InsertAttendance) :
    Nat × DB :=
  if user.role ≠ Role.teacher ∧ user.role ≠ Role.principal then (403, db)
  else
    match createAttendance db { body with recordedBy := some user.id } with
    | some res => (201, res.2)
    | none => (500, db)

/-- JavaScript truthiness of the optional `targetStudentId` string
(`if (!targetStudentId)`): absent and empty are falsy. -/
def truthyStr : Option String → Bool
  | none => false
  | some s => s ≠ ""

/-- `GET /api/report-cards` (`src/server/routes.ts` lines 385-406): a
student caller's target is their own linked student profile, any
`studentId` query value is discarded; other roles use the query value.
Returns the HTTP status and the body list. -/
def getReportCards (db : DB) (user : User) (queryStudentId : Option String) :
    Nat × List ReportCard :=
  let targetStudentId :=
    if user.role = Role.student then
      (getStudentByUserId db user.id).map Student.id
    else queryStudentId
  if truthyStr targetStudentId then
    match targetStudentId with
    | some sid => (200, getReportCardsByStudent db sid)
    | none => (400, [])
  else (400, [])

/-- Spec-side definition, for comparison with `generateReportCard` only:
the published grades of a student for a term and session, following the
spec's words for report-card generation. -/
def specPublishedGrades (db : DB) (studentId : String) (term : Term)
    (academicSessionId : String) : List Grade :=
  db.grades.filter
    (fun g =>
      decide (g.studentId = some studentId ∧ g.term = term ∧
        g.academicSessionId = some academicSessionId ∧
        g.status = GradeStatus.published))

/-- Spec-side definition: sum of `score` over the published grades
(the spec's `totalScore`). -/
def specTotalScore (db : DB) (studentId : String) (term : Term)
    (academicSessionId : String) : Rat :=
  (specPublishedGrades db studentId term academicSessionId).foldl
    (fun acc g => acc + g.score.getD 0) 0

/-- Spec-side definition: sum of `maxScore` over the published grades
(the spec's `totalPossible`). -/
def specTotalPossible (db : DB) (studentId : String) (term : Term)
    (academicSessionId : String) : Rat :=
  (specPublishedGrades db studentId term academicSessionId).foldl
    (fun acc g => acc + g.maxScore.getD 0) 0

/-- Spec-side definition: `average = totalScore / totalPossible × 100`,
zero-guarded as the spec requires. -/
def specAverage (db : DB) (studentId : String) (term : Term)
    (academicSessionId : String) : Rat :=
  let tp := specTotalPossible db studentId term academicSessionId
  if tp = 0 then 0
  else specTotalScore db studentId term academicSessionId / tp * 100

/-- A database with every table empty. -/
def emptyDB : DB :=
  { users := [], schools := [], students := [], teachers := [], classes := [],
    subjects := [], grades := [], attendance := [], assignments := [],
    messages := [], feePayments := [], announcements := [], reportCards := [],
    nextId := 0, now := 0 }

/-- The Math grade of the spec's C1 scenario: 85/100, published, first
term. -/
def gradeMath : Grade :=
  { id := "g1", studentId := some "S", subjectId := some "MATH",
    teacherId := some "t1", academicSessionId := some "SESSION1",
    term := Term.first, assessmentType := "exam", score := some 85,
    maxScore := some 100, status := GradeStatus.published, createdAt := 10 }

/-- The Chemistry grade of the spec's C1 scenario: 92/100, published,
first term. -/
def gradeChem : Grade :=
  { id := "g2", studentId := some "S", subjectId := some "CHEM",
    teacherId := some "t1", academicSessionId := some "SESSION1",
    term := Term.first, assessmentType := "exam", score := some 92,
    maxScore := some 100, status := GradeStatus.published, createdAt := 11 }

/-- Database for the C1 scenario: student S with the two published
grades. -/
def dbC1 : DB :=
  { emptyDB with
      students := [{ id := "S", userId := some "uS", studentId := "STU-1",
                     classId := some "C", schoolId := some "X" }]
      grades := [gradeMath, gradeChem]
      nextId := 7
      now := 100 }

/-- C1: the claim says `generateReportCard` sums the published grades'
scores into `totalScore`, their `maxScore`s into `totalPossible`, and
stores the percentage average, returning 177/200/88.50 for the scenario.
The code at `src/server/routes.ts` 1064-1082 instead inserts constant
zeros — its own comment admits it is a placeholder — so on the scenario
database the returned card carries 0/0/0 while the spec-side sums are
177, 200 and 88.5. -/
theorem generateReportCard_inserts_zeros_not_sums :
    (generateReportCard dbC1 "S" Term.first "SESSION1").1.totalScore = 0 ∧
    (generateReportCard dbC1 "S" Term.first "SESSION1").1.totalPossible = 0 ∧
    (generateReportCard dbC1 "S" Term.first "SESSION1").1.average = 0 ∧
    specTotalScore dbC1 "S" Term.first "SESSION1" = 177 ∧
    specTotalPossible dbC1 "S" Term.first "SESSION1" = 200 ∧
    specAverage dbC1 "S" Term.first "SESSION1" = 88.5 := by
  refine ⟨rfl, rfl, rfl, ?_, ?_, ?_⟩ <;>
    norm_num [specAverage, specTotalScore, specTotalPossible,
      specPublishedGrades, dbC1, emptyDB, gradeMath, gradeChem]

/-- Database after one `generateReportCard` call on the C1 scenario
database. -/
def dbC2once : DB := (generateReportCard dbC1 "S" Term.first "SESSION1").2

/-- Database after a second, identical `generateReportCard` call. -/
def dbC2twice : DB := (generateReportCard dbC2once "S" Term.first "SESSION1").2

/-- C2: the claim says regeneration is idempotent — an existing ReportCard
for the same (student, term, session) is overwritten, so two calls leave
exactly one row. The code always inserts a fresh row, so after two calls
with unchanged grades the store holds two rows for (S, first, SESSION1),
with distinct generated ids. -/
theorem generateReportCard_not_idempotent :
    (dbC2twice.reportCards.filter
      (fun r =>
        decide (r.studentId = some "S" ∧ r.term = Term.first ∧
          r.academicSessionId = some "SESSION1"))).length = 2 ∧
    dbC2twice.reportCards.map ReportCard.id = ["7", "8"] := by
  decide

/-- The first row of an inner join of `rows` with `schools` on
`sid r = s.id`, restricted to rows with `uid r = userId`: whenever some
row of `rows` matches the user and links to an existing school, the join
is non-empty and its head is a school linked to some matching row. -/
theorem head_filterMap_join (schools : List School) (rows : List α)
    (uid sid : α → Option String) (userId : String)
    (h : ∃ r, r ∈ rows ∧ uid r = some userId ∧
      ∃ s, s ∈ schools ∧ sid r = some s.id) :
    ∃ sc,
      (rows.filterMap (fun r =>
        if uid r = some userId then
          schools.find? (fun s => decide (sid r = some s.id))
        else none)).head? = some sc ∧
      ∃ r, r ∈ rows ∧ uid r = some userId ∧ sid r = some sc.id := by
  obtain ⟨r, hr, hru, s, hs, hrs⟩ := h
  rcases hL : rows.filterMap (fun r =>
      if uid r = some userId then
        schools.find? (fun s => decide (sid r = some s.id))
      else none) with _ | ⟨sc, rest⟩
  · exfalso
    have hfr := List.filterMap_eq_nil_iff.mp hL r hr
    rw [if_pos hru] at hfr
    have := List.find?_eq_none.mp hfr s hs
    simp [hrs] at this
  · refine ⟨sc, by rw [hL]; rfl, ?_⟩
    have hmem : sc ∈ rows.filterMap (fun r =>
        if uid r = some userId then
          schools.find? (fun s => decide (sid r = some s.id))
        else none) := by
      rw [hL]
      exact List.mem_cons_self _ _
    obtain ⟨r', hr', hfr'⟩ := List.mem_filterMap.mp hmem
    by_cases hru' : uid r' = some userId
    · rw [if_pos hru'] at hfr'
      exact ⟨r', hr', hru', by simpa using List.find?_some hfr'⟩
    · rw [if_neg hru'] at hfr'
      exact absurd hfr' (by simp)

/-- C3: `getSchoolByUser` resolves in strict precedence order. If the
identity is proprietor of some school, the result is a school it owns
(so a proprietor-elsewhere-teacher resolves to the proprietor's school);
if it owns none but is principal of some school, the result is a school it
heads; if neither but it has a linked teacher row whose school exists, the
result is a school it teaches at (regardless of any student link); if it
is only a linked student, the result is a school it studies at; and when
no proprietor, principal, teacher or student relation exists at all, the
result is `none`, a normal value rather than an error. -/
theorem getSchoolByUser_precedence (db : DB) (userId : String) :
    ((∃ s, s ∈ db.schools ∧ s.proprietorId = some userId) →
      ∃ s, getSchoolByUser db userId = some s ∧
        s.proprietorId = some userId) ∧
    ((∀ s, s ∈ db.schools → s.proprietorId ≠ some userId) →
      (∃ s, s ∈ db.schools ∧ s.principalId = some userId) →
      ∃ s, getSchoolByUser db userId = some s ∧
        s.principalId = some userId) ∧
    ((∀ s, s ∈ db.schools →
        s.proprietorId ≠ some userId ∧ s.principalId ≠ some userId) →
      (∃ t, t ∈ db.teachers ∧ t.userId = some userId ∧
        ∃ s, s ∈ db.schools ∧ t.schoolId = some s.id) →
      ∃ s, getSchoolByUser db userId = some s ∧
        ∃ t, t ∈ db.teachers ∧ t.userId = some userId ∧
          t.schoolId = some s.id) ∧
    ((∀ s, s ∈ db.schools →
        s.proprietorId ≠ some userId ∧ s.principalId ≠ some userId) →
      (∀ t, t ∈ db.teachers → t.userId ≠ some userId) →
      (∃ st, st ∈ db.students ∧ st.userId = some userId ∧
        ∃ s, s ∈ db.schools ∧ st.schoolId = some s.id) →
      ∃ s, getSchoolByUser db userId = some s ∧
        ∃ st, st ∈ db.students ∧ st.userId = some userId ∧
          st.schoolId = some s.id) ∧
    ((∀ s, s ∈ db.schools →
        s.proprietorId ≠ some userId ∧ s.principalId ≠ some userId) →
      (∀ t, t ∈ db.teachers → t.userId ≠ some userId) →
      (∀ st, st ∈ db.students → st.userId ≠ some userId) →
      getSchoolByUser db userId = none) := by
  refine ⟨?_, ?_, ?_, ?_, ?_⟩
  · rintro ⟨s, hs, hp⟩
    rcases hfind :
        db.schools.find? (fun s => decide (s.proprietorId = some userId)) with
      _ | sc
    · exact absurd (by simpa using List.find?_eq_none.mp hfind s hs) (by simp [hp])
    · refine ⟨sc, ?_, by simpa using List.find?_some hfind⟩
      simp [getSchoolByUser, hfind]
  · rintro hno ⟨s, hs, hp⟩
    have hfind1 :
        db.schools.find? (fun s => decide (s.proprietorId = some userId)) =
          none :=
      List.find?_eq_none.mpr (fun x hx => by simpa using hno x hx)
    rcases hfind :
        db.schools.find? (fun s => decide (s.principalId = some userId)) with
      _ | sc
    · exact absurd (by simpa using List.find?_eq_none.mp hfind s hs) (by simp [hp])
    · refine ⟨sc, ?_, by simpa using List.find?_some hfind⟩
      simp [getSchoolByUser, hfind1, hfind]
  · intro hschool hex
    have hfind1 :
        db.schools.find? (fun s => decide (s.proprietorId = some userId)) =
          none :=
      List.find?_eq_none.mpr (fun x hx => by simpa using (hschool x hx).1)
    have hfind2 :
        db.schools.find? (fun s => decide (s.principalId = some userId)) =
          none :=
      List.find?_eq_none.mpr (fun x hx => by simpa using (hschool x hx).2)
    obtain ⟨sc, hhead, hlink⟩ :=
      head_filterMap_join db.schools db.teachers Teacher.userId
        Teacher.schoolId userId hex
    refine ⟨sc, ?_, hlink⟩
    simp [getSchoolByUser, hfind1, hfind2, hhead]
  · intro hschool hteach hex
    have hfind1 :
        db.schools.find? (fun s => decide (s.proprietorId = some userId)) =
          none :=
      List.find?_eq_none.mpr (fun x hx => by simpa using (hschool x hx).1)
    have hfind2 :
        db.schools.find? (fun s => decide (s.principalId = some userId)) =
          none :=
      List.find?_eq_none.mpr (fun x hx => by simpa using (hschool x hx).2)
    have hmap1 :
        db.teachers.filterMap (fun t =>
          if t.userId = some userId then
            db.schools.find? (fun s => decide (t.schoolId = some s.id))
          else none) = [] :=
      List.filterMap_eq_nil_iff.mpr (fun t ht => by
        simp [hteach t ht])
    obtain ⟨sc, hhead, hlink⟩ :=
      head_filterMap_join db.schools db.students Student.userId
        Student.schoolId userId hex
    refine ⟨sc, ?_, hlink⟩
    simp [getSchoolByUser, hfind1, hfind2, hmap1, hhead]
  · intro hschool hteach hstud
    have hfind1 :
        db.schools.find? (fun s => decide (s.proprietorId = some userId)) =
          none :=
      List.find?_eq_none.mpr (fun x hx => by simpa using (hschool x hx).1)
    have hfind2 :
        db.schools.find? (fun s => decide (s.principalId = some userId)) =
          none :=
      List.find?_eq_none.mpr (fun x hx => by simpa using (hschool x hx).2)
    have hmap1 :
        db.teachers.filterMap (fun t =>
          if t.userId = some userId then
            db.schools.find? (fun s => decide (t.schoolId = some s.id))
          else none) = [] :=
      List.filterMap_eq_nil_iff.mpr (fun t ht => by
        simp [hteach t ht])
    have hmap2 :
        db.students.filterMap (fun st =>
          if st.userId = some userId then
            db.schools.find? (fun s => decide (st.schoolId = some s.id))
          else none) = [] :=
      List.filterMap_eq_nil_iff.mpr (fun st hst => by
        simp [hstud st hst])
    simp [getSchoolByUser, hfind1, hfind2, hmap1, hmap2]

/-- Database for the C3 scenario: identity u1 is proprietor of school
Alpha and simultaneously a linked teacher of school Beta; identity u2 is
a linked teacher of Beta and simultaneously a linked student of Alpha;
identity u3 is only a linked student of Alpha. -/
def dbC3 : DB :=
  { emptyDB with
      schools := [{ id := "A", name := "Alpha", proprietorId := some "u1",
                    principalId := none },
                  { id := "B", name := "Beta", proprietorId := none,
                    principalId := none }]
      teachers := [{ id := "t1", userId := some "u1", teacherId := "T-1",
                     schoolId := some "B" },
                   { id := "t2", userId := some "u2", teacherId := "T-2",
                     schoolId := some "B" }]
      students := [{ id := "st1", userId := some "u2", studentId := "STU-2",
                     classId := none, schoolId := some "A" },
                   { id := "st2", userId := some "u3", studentId := "STU-3",
                     classId := none, schoolId := some "A" }] }

/-- Witness for C3: on the scenario database the proprietor relation wins
over the teacher relation for u1, the teacher relation wins over the
student relation for u2, the lone student relation resolves u3, and a
fresh identity resolves to `none`. -/
theorem getSchoolByUser_precedence_witness :
    (∃ s, getSchoolByUser dbC3 "u1" = some s ∧
      s.proprietorId = some "u1") ∧
    (∃ s, getSchoolByUser dbC3 "u2" = some s ∧
      ∃ t, t ∈ dbC3.teachers ∧ t.userId = some "u2" ∧
        t.schoolId = some s.id) ∧
    (∃ s, getSchoolByUser dbC3 "u3" = some s ∧
      ∃ st, st ∈ dbC3.students ∧ st.userId = some "u3" ∧
        st.schoolId = some s.id) ∧
    getSchoolByUser dbC3 "u9" = none :=
  ⟨(getSchoolByUser_precedence dbC3 "u1").1
      ⟨{ id := "A", name := "Alpha", proprietorId := some "u1",
         principalId := none }, by decide, by decide⟩,
    (getSchoolByUser_precedence dbC3 "u2").2.2.1 (by decide) (by decide),
    (getSchoolByUser_precedence dbC3 "u3").2.2.2.1 (by decide) (by decide)
      (by decide),
    (getSchoolByUser_precedence dbC3 "u9").2.2.2.2 (by decide) (by decide)
      (by decide)⟩



/-- An active teacher-targeted announcement of school X. -/
def annTeacher : Announcement :=
  { id := "a1", title := "staff meeting", content := "…", authorId := none,
    schoolId := some "X", targetRole := some Role.teacher, isActive := true,
    createdAt := 1 }

/-- An active announcement of school X with no target role (the schema
comment says a null target means all roles). -/
def annAll : Announcement :=
  { id := "a2", title := "holiday", content := "…", authorId := none,
    schoolId := some "X", targetRole := none, isActive := true,
    createdAt := 2 }

/-- Database for the C4 scenario: school X with the two announcements. -/
def dbC4 : DB := { emptyDB with announcements := [annTeacher, annAll] }

/-- C4: the claim says a role-filtered read returns announcements whose
target role equals the role or is null. The role branch of
`getAnnouncementsBySchool` filters with `targetRole = role`, which is
never satisfied by a null `targetRole`, so the query for role student
returns the empty list even though the null-target announcement `annAll`
is active in school X — contradicting the schema's own
"null means all roles" comment. -/
theorem getAnnouncementsBySchool_drops_null_target :
    getAnnouncementsBySchool dbC4 "X" (some Role.student) = [] ∧
    annAll ∈ dbC4.announcements ∧
    annAll.schoolId = some "X" ∧
    annAll.targetRole = none ∧
    annAll.isActive = true ∧
    getAnnouncementsBySchool dbC4 "X" none = [annAll, annTeacher] := by
  decide

/-- C5: every write route rejects a role-mismatched caller with 403 and
returns the store untouched: `POST /api/grades` for any non-teacher,
`POST /api/announcements` for any caller who is neither principal nor
proprietor (including an unknown caller id), and `POST /api/attendance`
for any caller who is neither teacher nor principal. -/
theorem write_routes_reject_role_mismatch :
    (∀ (db : DB) (user : User) (body : InsertGrade),
      user.role ≠ Role.teacher → postGrades db user body = (403, db)) ∧
    (∀ (db : DB) (userId : String) (body : InsertAnnouncement),
      getUser db userId = none → postAnnouncements db userId body = (403, db)) ∧
    (∀ (db : DB) (userId : String) (user : User) (body : InsertAnnouncement),
      getUser db userId = some user → user.role ≠ Role.principal →
      user.role ≠ Role.proprietor →
      postAnnouncements db userId body = (403, db)) ∧
    (∀ (db : DB) (user : User) (body : InsertAttendance),
      user.role ≠ Role.teacher → user.role ≠ Role.principal →
      postAttendance db user body = (403, db)) := by
  refine ⟨?_, ?_, ?_, ?_⟩
  · intro db user body h
    simp [postGrades, h]
  · intro db userId body h
    simp [postAnnouncements, h]
  · intro db userId user body hu h1 h2
    simp [postAnnouncements, hu, h1, h2]
  · intro db user body h1 h2
    simp [postAttendance, h1, h2]

/-- A student-role user used to exercise the 403 guards. -/
def userStu : User := { id := "uStu", email := "stu@x", role := Role.student }

/-- Database for the C5 witness: the student-role user exists. -/
def dbC5 : DB := { emptyDB with users := [userStu] }

/-- A grade insert payload used in the C5 witness. -/
def insGradeW : InsertGrade :=
  { studentId := some "S", subjectId := some "MATH", teacherId := some "t1",
    academicSessionId := some "SESSION1", term := Term.first,
    assessmentType := "exam", score := some 50, maxScore := some 100,
    status := GradeStatus.draft }

/-- An announcement insert payload used in the C5 witness. -/
def insAnnW : InsertAnnouncement :=
  { title := "t", content := "c", authorId := none, schoolId := none,
    targetRole := none, isActive := true }

/-- An attendance insert payload used in the C5 witness. -/
def insAttW : InsertAttendance :=
  { studentId := some "S", classId := some "C", date := 5,
    status := AttendanceStatus.present, remarks := none, recordedBy := none }

/-- Witness for C5: a student-role caller gets 403 and an unchanged store
from all three write routes. -/
theorem write_routes_reject_role_mismatch_witness :
    postGrades dbC5 userStu insGradeW = (403, dbC5) ∧
    postAnnouncements dbC5 "uStu" insAnnW = (403, dbC5) ∧
    postAttendance dbC5 userStu insAttW = (403, dbC5) :=
  ⟨write_routes_reject_role_mismatch.1 dbC5 userStu insGradeW (by decide),
   write_routes_reject_role_mismatch.2.2.1 dbC5 "uStu" userStu insAnnW
     (by decide) (by decide) (by decide),
   write_routes_reject_role_mismatch.2.2.2 dbC5 userStu insAttW
     (by decide) (by decide)⟩

/-- A teacher-role caller for the C6 failing input. -/
def userTeachC6 : User := { id := "uT6", email := "t6@x", role := Role.teacher }

/-- Database for the C6 failing input: the teacher exists and the
attendance table is empty. -/
def dbC6 : DB := { emptyDB with users := [userTeachC6] }

/-- C6: the claim says the store keeps at most one attendance record per
(student, date), with duplicate submissions either conflict-rejected or
deterministically overwritten. The code implements neither policy: the
table-shadowing slip in `createAttendance` (`src/server/routes.ts`
1129-1135, flagged by the spec's open questions) makes every insert
throw, so even the very first valid submission by a teacher returns 500
and persists nothing — evaluated here at the failing input. -/
theorem recordAttendance_first_submission_throws :
    userTeachC6.role = Role.teacher ∧
    createAttendance dbC6 insAttW = none ∧
    postAttendance dbC6 userTeachC6 insAttW = (500, dbC6) ∧
    (postAttendance dbC6 userTeachC6 insAttW).2.attendance = [] := by
  decide

/-- C7: the dashboard composer degrades gracefully. For a caller whose
role-required profile is missing — a student-role identity with no linked
student row, or a teacher-role identity with no linked teacher row — the
composer returns exactly the base payload (identity + school) with every
role-specific section absent, instead of failing. -/
theorem getDashboard_degrades_to_base (db : DB) (userId : String) (u : User)
    (hu : getUser db userId = some u) :
    (u.role = Role.student → getStudentByUserId db userId = none →
      getDashboard db userId =
        some { user := u, school := getSchoolByUser db userId }) ∧
    (u.role = Role.teacher → getTeacherByUserId db userId = none →
      getDashboard db userId =
        some { user := u, school := getSchoolByUser db userId }) := by
  constructor
  · intro hrole hst
    simp [getDashboard, hu, hrole, hst]
  · intro hrole ht
    simp [getDashboard, hu, hrole, ht]

/-- A student-role identity with no linked student profile. -/
def userMidOnboardStu : User :=
  { id := "uS", email := "s@x", role := Role.student }

/-- A teacher-role identity with no linked teacher profile. -/
def userMidOnboardTea : User :=
  { id := "uT", email := "t@x", role := Role.teacher }

/-- Database for the C7 witness: both mid-onboarding identities exist but
neither has a profile row. -/
def dbC7 : DB :=
  { emptyDB with users := [userMidOnboardStu, userMidOnboardTea] }

/-- Witness for C7: both mid-onboarding identities receive the bare base
payload. -/
theorem getDashboard_degrades_to_base_witness :
    getDashboard dbC7 "uS" =
      some { user := userMidOnboardStu, school := getSchoolByUser dbC7 "uS" } ∧
    getDashboard dbC7 "uT" =
      some { user := userMidOnboardTea, school := getSchoolByUser dbC7 "uT" } :=
  ⟨(getDashboard_degrades_to_base dbC7 "uS" userMidOnboardStu (by decide)).1
      (by decide) (by decide),
   (getDashboard_degrades_to_base dbC7 "uT" userMidOnboardTea (by decide)).2
      (by decide) (by decide)⟩

/-- C8: for every student and optional term, `getGradesByStudent` returns
exactly that student's grades — restricted to the term when one is given,
all terms otherwise — as a permutation of the matching rows, ordered
newest first on `createdAt`; membership is characterised accordingly. -/
theorem getGradesByStudent_exact_and_newest_first (db : DB) (sid : String) :
    (∀ t : Term,
      (getGradesByStudent db sid (some t)).Perm
        (db.grades.filter
          (fun g => decide (g.studentId = some sid ∧ g.term = t))) ∧
      List.Sorted (descKey Grade.createdAt)
        (getGradesByStudent db sid (some t)) ∧
      (∀ g, g ∈ getGradesByStudent db sid (some t) ↔
        g ∈ db.grades ∧ g.studentId = some sid ∧ g.term = t)) ∧
    ((getGradesByStudent db sid none).Perm
        (db.grades.filter (fun g => decide (g.studentId = some sid))) ∧
      List.Sorted (descKey Grade.createdAt) (getGradesByStudent db sid none) ∧
      (∀ g, g ∈ getGradesByStudent db sid none ↔
        g ∈ db.grades ∧ g.studentId = some sid)) := by
  constructor
  · intro t
    refine ⟨List.perm_insertionSort _ _, List.sorted_insertionSort _ _, ?_⟩
    intro g
    rw [getGradesByStudent, sortDescBy,
      (List.perm_insertionSort _ _).mem_iff, List.mem_filter]
    simp
  · refine ⟨List.perm_insertionSort _ _, List.sorted_insertionSort _ _, ?_⟩
    intro g
    rw [getGradesByStudent, sortDescBy,
      (List.perm_insertionSort _ _).mem_iff, List.mem_filter]
    simp

/-- Counterexample for C9: the claim says the attendance status enum holds
the four values present, absent, late and excused, but `"excused"` is not
among the pgEnum's values in `src/shared/schema.ts` line 29. -/
theorem attendanceStatusValues_no_excused :
    ¬ ("excused" ∈ attendanceStatusValues) := by
  decide

/-- C9 (amended): the Attendance status field ranges over exactly the
three values present, absent and late — `attendanceStatusEnum` lists those
three strings and nothing else, and the status type has no further
inhabitant, so no record can carry a fourth status such as "excused". -/
theorem attendanceStatus_exactly_three :
    attendanceStatusValues.length = 3 ∧
    "present" ∈ attendanceStatusValues ∧
    "absent" ∈ attendanceStatusValues ∧
    "late" ∈ attendanceStatusValues ∧
    (∀ s : AttendanceStatus, s = AttendanceStatus.present ∨
      s = AttendanceStatus.absent ∨ s = AttendanceStatus.late) := by
  refine ⟨rfl, by decide, by decide, by decide, ?_⟩
  intro s
  cases s <;> simp

/-- C10: for a student-role caller, `GET /api/report-cards` resolves the
target from the caller's own linked student profile and discards the
`studentId` query parameter entirely: two requests by the same student
caller differing only in the supplied `studentId` yield identical
responses; whenever the caller has a linked profile (with a non-empty,
hence truthy, id) the response is 200 with exactly that profile's report
cards, newest first; and with no linked profile the response is 400 with
an empty body, regardless of the query. -/
theorem getReportCards_student_own_cards (db : DB) (u : User)
    (q1 q2 : Option String) (h : u.role = Role.student) :
    getReportCards db u q1 = getReportCards db u q2 ∧
    (∀ st, getStudentByUserId db u.id = some st → st.id ≠ "" →
      (getReportCards db u q1).1 = 200 ∧
      (getReportCards db u q1).2 = getReportCardsByStudent db st.id ∧
      ((getReportCards db u q1).2).Perm
        (db.reportCards.filter
          (fun r => decide (r.studentId = some st.id))) ∧
      List.Sorted (descKey ReportCard.generatedAt)
        (getReportCards db u q1).2) ∧
    (getStudentByUserId db u.id = none →
      getReportCards db u q1 = (400, [])) := by
  refine ⟨by simp [getReportCards, h], ?_, ?_⟩
  · intro st hst hne
    have hres :
        getReportCards db u q1 = (200, getReportCardsByStudent db st.id) := by
      simp [getReportCards, h, hst, truthyStr, hne]
    rw [hres]
    refine ⟨rfl, rfl, ?_, ?_⟩
    · simpa [getReportCardsByStudent, sortDescBy] using
        List.perm_insertionSort (descKey ReportCard.generatedAt)
          (db.reportCards.filter
            (fun r => decide (r.studentId = some st.id)))
    · simpa [getReportCardsByStudent, sortDescBy] using
        List.sorted_insertionSort (descKey ReportCard.generatedAt)
          (db.reportCards.filter
            (fun r => decide (r.studentId = some st.id)))
  · intro hnone
    simp [getReportCards, h, hnone, truthyStr]

/-- The C10 caller's own linked student profile. -/
def stuA : Student :=
  { id := "SA", userId := some "uA", studentId := "STU-A",
    classId := none, schoolId := none }

/-- A report card belonging to the C10 caller's own profile. -/
def rcA : ReportCard :=
  { id := "r1", studentId := some "SA", academicSessionId := some "SESSION1",
    term := Term.first, totalScore := 150, totalPossible := 200,
    average := 75, position := 1, classSize := 2, isPublished := true,
    generatedAt := 3 }

/-- A report card belonging to the other student SB, present to tempt
leakage through the query parameter. -/
def rcB : ReportCard :=
  { id := "r2", studentId := some "SB", academicSessionId := some "SESSION1",
    term := Term.first, totalScore := 120, totalPossible := 200,
    average := 60, position := 2, classSize := 2, isPublished := true,
    generatedAt := 4 }

/-- Database for the C10 witness: the student caller with a linked
profile, another student, and one report card each. -/
def dbC10 : DB :=
  { emptyDB with
      users := [{ id := "uA", email := "a@x", role := Role.student }]
      students := [stuA,
                   { id := "SB", userId := some "uB", studentId := "STU-B",
                     classId := none, schoolId := none }]
      reportCards := [rcA, rcB] }

/-- The student caller of the C10 witness. -/
def userC10 : User := { id := "uA", email := "a@x", role := Role.student }

/-- Witness for C10: supplying the other student's id changes nothing
compared to supplying no id at all, and the response is 200 with exactly
the caller's own profile's cards. -/
theorem getReportCards_student_own_cards_witness :
    getReportCards dbC10 userC10 (some "SB") =
      getReportCards dbC10 userC10 none ∧
    (getReportCards dbC10 userC10 (some "SB")).1 = 200 ∧
    (getReportCards dbC10 userC10 (some "SB")).2 =
      getReportCardsByStudent dbC10 stuA.id ∧
    ((getReportCards dbC10 userC10 (some "SB")).2).Perm
      (dbC10.reportCards.filter
        (fun r => decide (r.studentId = some stuA.id))) ∧
    List.Sorted (descKey ReportCard.generatedAt)
      (getReportCards dbC10 userC10 (some "SB")).2 :=
  have h := getReportCards_student_own_cards dbC10 userC10 (some "SB") none
    (by decide)
  have hown := h.2.1 stuA (by decide) (by decide)
  ⟨h.1, hown.1, hown.2.1, hown.2.2.1, hown.2.2.2⟩

end EMSU
